import Mathlib

/-!
Verification of the certificate-expiry monitoring core and of the Tellstick
sensor callback handler.

The repository holds two source files: the Tellstick platform shim
(homeassistant/components/tellstick/sensor.py), which is embedded directly
below, and the test suite of the cert-expiry integration
(tests/components/cert_expiry/test_sensors.py).  The cert-expiry
implementation itself is not part of the source tree, so its data model and
per-tick update are modelled from the specification; where the test file pins
down observable behaviour, the model follows the test file, since the tests
are repository code.

Time is modelled as an integer count of seconds; one day is 86400 seconds.
-/

/-- Modelled from the spec: the failure taxonomy of the TLS Certificate
Fetcher.  `unreachable` covers DNS / connection-refused / timeout failures
(transient), `certError` covers TLS handshake and certificate validation
failures, and `unknown` covers any other unexpected exception. -/
inductive ErrorKind where
  | unreachable
  | certError
  | unknown
deriving DecidableEq, Repr

/-- Modelled from the spec: the result of one Fetcher invocation, either a
successfully parsed expiry timestamp or a classified failure with a
message.  Never mutated. -/
inductive ProbeResult where
  | success (expiry : Int)
  | failure (kind : ErrorKind) (message : String)
deriving DecidableEq, Repr

/-- Modelled from the spec: the per-Target Expiry State
`{last_probe_time, expiry_timestamp: optional, is_valid, error: optional}`.
The extra `available` flag records whether the most recent refresh produced a
reading: the spec's scenario 5 and the test file
(`test_update_sensor_network_errors`) show readings rendered with an
unavailable marker after a transient failure or an unexpected exception,
which is not derivable from the four listed fields alone. -/
structure ExpiryState where
  last_probe_time : Int
  expiry_timestamp : Option Int
  is_valid : Bool
  error : Option String
  available : Bool
deriving DecidableEq, Repr

/-- Modelled from the spec: the Expiry State update applied on every poll
tick, per the rules of spec section 3.  On `success` the timestamp is stored
and validity is recomputed against the current time; on an `unreachable`
failure the stored timestamp is retained from the last success; on a
`certError` failure it is cleared.  For the `unknown` kind the stored-state
effects follow the spec (treated like `certError`: validity false, error
recorded, timestamp cleared), but availability follows the test file: the
test asserts the reading becomes unavailable after an unexpected exception
(`test_update_sensor_network_errors`, the final tick), exactly as in the
`unreachable` case, whereas a `certError` tick keeps the reading
available. -/
def updateState (st : ExpiryState) (r : ProbeResult) (now : Int) : ExpiryState :=
  match r with
  | .success ts =>
      { last_probe_time := now
        expiry_timestamp := some ts
        is_valid := decide (now < ts)
        error := none
        available := true }
  | .failure .unreachable msg =>
      { last_probe_time := now
        expiry_timestamp := st.expiry_timestamp
        is_valid := false
        error := some msg
        available := false }
  | .failure .certError msg =>
      { last_probe_time := now
        expiry_timestamp := none
        is_valid := false
        error := some msg
        available := true }
  | .failure .unknown msg =>
      { last_probe_time := now
        expiry_timestamp := none
        is_valid := false
        error := some msg
        available := false }

/-- Modelled from the spec: days until expiry, derived as
`max(0, floor((expiry_timestamp - now).days))`.  `Int.ediv` by the positive
constant 86400 is floor division, matching Python timedelta `.days`. -/
def daysRemaining (now ts : Int) : Int :=
  max 0 (Int.ediv (ts - now) 86400)

/-- Modelled from the spec: the `days_remaining_reading` of the Consumer
Interface, recomputed on read.  `none` is the unavailable marker used when
the last refresh failed; with a reading available it is the derived days
value, or `0` when no expiry timestamp is stored. -/
def daysReading (st : ExpiryState) (now : Int) : Option Int :=
  if st.available then
    some (match st.expiry_timestamp with
      | some ts => daysRemaining now ts
      | none => 0)
  else none

/-- Modelled from the spec: the value shown by the `timestamp_reading`.
`instant ts` stands for the ISO-8601 rendering of the absolute expiry
instant `ts`; `unknown` is the unknown marker shown when no expiry
timestamp is stored; `unavailable` is the unavailable marker shown when the
last refresh failed. -/
inductive TimestampValue where
  | unavailable
  | unknown
  | instant (ts : Int)
deriving DecidableEq, Repr

/-- Modelled from the spec: the `timestamp_reading` of the Consumer
Interface, recomputed on read. -/
def timestampReading (st : ExpiryState) : TimestampValue :=
  if st.available then
    match st.expiry_timestamp with
    | some ts => .instant ts
    | none => .unknown
  else .unavailable

/-- Modelled from the spec: the rendering of the `error` side attribute,
the failure message string or the string "None" when there is no error. -/
def errorAttr (st : ExpiryState) : String :=
  match st.error with
  | some m => m
  | none => "None"

/-- Modelled from the spec: the side attributes
`{error: string|"None", is_valid: boolean}` exposed by both readings. -/
structure ReadingAttrs where
  error : String
  is_valid : Bool
deriving DecidableEq, Repr

/-- Modelled from the spec: the side attributes mirrored from Expiry State
onto both derived readings. -/
def attrsOf (st : ExpiryState) : ReadingAttrs :=
  { error := errorAttr st, is_valid := st.is_valid }

/-- Modelled from the spec: the per-Target lifecycle states.  `setupRetry`
is the host-level state before the Target is established, `ready` holds the
Expiry State of an established Target, and `removed` is the terminal state
after `remove_target`. -/
inductive TargetState where
  | setupRetry
  | ready (st : ExpiryState)
  | removed
deriving DecidableEq, Repr

/-- Modelled from the spec: the blank Expiry State created when a Target is
set up, before any probe data is recorded. -/
def initialExpiryState (now : Int) : ExpiryState :=
  { last_probe_time := now
    expiry_timestamp := none
    is_valid := false
    error := none
    available := false }

/-- Modelled from the spec: `add_target` performs an immediate probe; if the
probe is `unreachable` the Target stays unestablished and a setup-retry is
signalled, otherwise (success or cert-level failure) the Target becomes
`ready` with the Expiry State produced by applying the probe to a blank
state. -/
def addTarget (r : ProbeResult) (now : Int) : TargetState :=
  match r with
  | .failure .unreachable _ => .setupRetry
  | .failure k m => .ready (updateState (initialExpiryState now) (.failure k m) now)
  | .success ts => .ready (updateState (initialExpiryState now) (.success ts) now)

/-- Modelled from the spec: one scheduler step for a Target.  A Target in
`setupRetry` re-runs the setup probe after the backoff interval; an
established Target applies the steady-state tick; a removed Target stays
removed. -/
def tick (t : TargetState) (r : ProbeResult) (now : Int) : TargetState :=
  match t with
  | .setupRetry => addTarget r now
  | .ready st => .ready (updateState st r now)
  | .removed => .removed

/-- Modelled from the spec: folding a sequence of probe results (each with
the time at which its tick fires) over a Target's lifecycle state. -/
def runTicks (t : TargetState) (ps : List (ProbeResult × Int)) : TargetState :=
  ps.foldl (fun s p => tick s p.1 p.2) t

/-- Modelled from the spec: whether derived readings are registered for a
Target; they exist exactly when the Target is established (`ready`), never
in `setupRetry` or after removal. -/
def readingsRegistered (t : TargetState) : Bool :=
  match t with
  | .ready _ => true
  | _ => false

/-- Entry of the `only_named` configuration list of the Tellstick platform:
a required id and name with optional protocol and model
(homeassistant/components/tellstick/sensor.py, PLATFORM_SCHEMA). -/
structure NamedSensorConf where
  id_ : Nat
  name : String
  protocol : Option String
  model : Option String
deriving DecidableEq, Repr

/-- Configuration of the Tellstick sensor platform: the `only_named` list,
the `datatype_mask` (default 127) and the `temperature_scale`
(homeassistant/components/tellstick/sensor.py, PLATFORM_SCHEMA). -/
structure SensorConfig where
  only_named : List NamedSensorConf
  datatype_mask : Nat
  temperature_scale : String
deriving DecidableEq, Repr

/-- Lookup in an association list built by successive insertions, where a
later binding of the same key overwrites an earlier one, matching Python
dict construction followed by key lookup. -/
def lookupLast {α β : Type} [DecidableEq α] (l : List (α × β)) (k : α) : Option β :=
  l.foldl (fun acc p => if p.1 = k then some p.2 else acc) none

/-- The `DatatypeDescription` namedtuple of the Tellstick platform: a sensor
kind name and its unit (homeassistant/components/tellstick/sensor.py). -/
structure DatatypeDescription where
  name : String
  unit : String
deriving DecidableEq, Repr

/-- The `sensor_value_descriptions` dict of `setup_platform`, keyed by the
Tellstick datatype constants.  The numeric keys 1, 2, 4, 8, 16, 32, 64 are
the values of TELLSTICK_TEMPERATURE, TELLSTICK_HUMIDITY, TELLSTICK_RAINRATE,
TELLSTICK_RAINTOTAL, TELLSTICK_WINDDIRECTION, TELLSTICK_WINDAVERAGE and
TELLSTICK_WINDGUST from the external tellcore.constants module; the unit of
the humidity entry is UNIT_PERCENTAGE. -/
def sensor_value_descriptions (config : SensorConfig) : List (Nat × DatatypeDescription) :=
  [ (1, { name := "temperature", unit := config.temperature_scale })
  , (2, { name := "humidity", unit := "%" })
  , (4, { name := "rain rate", unit := "" })
  , (8, { name := "rain total", unit := "" })
  , (16, { name := "wind direction", unit := "" })
  , (32, { name := "wind average", unit := "" })
  , (64, { name := "wind gust", unit := "" }) ]

/-- The `named_sensors` dict built by `setup_platform` from the `only_named`
configuration.  Python stores integer keys (bare ids) and string keys
(protocol-id and protocol-model-id concatenations) in one dict; an integer
lookup can only hit an integer key and a string lookup only a string key, so
the dict is modelled as a pair of association lists: bare-id bindings first,
string-key bindings second. -/
def named_sensors (config : SensorConfig) : List (Nat × String) × List (String × String) :=
  config.only_named.foldl
    (fun maps ns =>
      match ns.protocol with
      | some proto =>
          match ns.model with
          | some model => (maps.1, maps.2 ++ [(proto ++ model ++ toString ns.id_, ns.name)])
          | none => (maps.1, maps.2 ++ [(proto ++ toString ns.id_, ns.name)])
      | none => (maps.1 ++ [(ns.id_, ns.name)], maps.2))
    ([], [])

/-- The sensor-name resolution at the top of `async_handle_callback`: with
an empty `only_named` list the name is the stringified id; otherwise the
bare id, the protocol-id string and the protocol-model-id string are looked
up in `named_sensors` in that order, and an unmatched callback is dropped
(the handler returns without registering anything). -/
def sensorNameFor (config : SensorConfig) (protocol model : String) (id_ : Nat) : Option String :=
  if config.only_named = [] then some (toString id_)
  else
    let maps := named_sensors config
    let proto_id := protocol ++ toString id_
    let proto_model_id := protocol ++ model ++ toString id_
    match lookupLast maps.1 id_ with
    | some n => some n
    | none =>
        match lookupLast maps.2 proto_id with
        | some n => some n
        | none =>
            match lookupLast maps.2 proto_model_id with
            | some n => some n
            | none => none

/-- The fields set by `TellstickSensor.__init__`
(homeassistant/components/tellstick/sensor.py). -/
structure TellstickSensor where
  _datatype : Nat
  _unit_of_measurement : Option String
  _value : Option String
  _name : String
deriving DecidableEq, Repr

/-- Constructor body of `TellstickSensor`: the unit is the description's
unit or None when that is falsy (the empty string), the value starts as
None, and the entity name joins the sensor name and the description name
with a space. -/
def mkTellstickSensor (name : String) (datatype : Nat) (sensor_info : DatatypeDescription) : TellstickSensor :=
  { _datatype := datatype
    _unit_of_measurement := if sensor_info.unit = "" then none else some sensor_info.unit
    _value := none
    _name := name ++ " " ++ sensor_info.name }

/-- Mutable platform state captured by the `setup_platform` closure: the
`registered_sensors` list and the entities accumulated through
`add_entities` calls. -/
structure PlatformState where
  registered_sensors : List String
  entities : List TellstickSensor
deriving DecidableEq, Repr

/-- Arguments of one Tellcore device-event callback that the handler's
logic depends on; the remaining parameters (value, timestamp, cid) are only
logged and never influence registration or entity creation. -/
structure TellstickCallback where
  protocol : String
  model : String
  id_ : Nat
  dataType : Nat
deriving DecidableEq, Repr

/-- The body of `async_handle_callback`
(homeassistant/components/tellstick/sensor.py, lines 113 to 146): resolve
the sensor name (dropping unmatched callbacks when `only_named` is set),
build the key string sensor_name-dataType, and if the key is not yet in
`registered_sensors`, append it and call `add_entities` with a singleton
list when the datatype is a known sensor datatype selected by the
`datatype_mask`, with an empty list otherwise. -/
def async_handle_callback (config : SensorConfig) (st : PlatformState) (cb : TellstickCallback) : PlatformState :=
  match sensorNameFor config cb.protocol cb.model cb.id_ with
  | none => st
  | some sensor_name =>
      let sensor := sensor_name ++ "-" ++ toString cb.dataType
      if sensor ∈ st.registered_sensors then st
      else
        let sensors : List TellstickSensor :=
          match lookupLast (sensor_value_descriptions config) cb.dataType with
          | some sensor_info =>
              if cb.dataType &&& config.datatype_mask ≠ 0 then
                [mkTellstickSensor sensor_name cb.dataType sensor_info]
              else []
          | none => []
        { registered_sensors := st.registered_sensors ++ [sensor]
          entities := st.entities ++ sensors }

/-- Folding a sequence of Tellcore callbacks through the handler. -/
def runCallbacks (config : SensorConfig) (st : PlatformState) (cbs : List TellstickCallback) : PlatformState :=
  cbs.foldl (async_handle_callback config) st

/-- The registration key a callback resolves to: the sensor name joined
with the stringified datatype, or none when the callback is dropped by the
`only_named` filter. -/
def callbackKey (config : SensorConfig) (cb : TellstickCallback) : Option String :=
  (sensorNameFor config cb.protocol cb.model cb.id_).map
    (fun n => n ++ "-" ++ toString cb.dataType)

/-- The platform state at the end of `setup_platform`, before any callback
fires: no registered sensors and no entities. -/
def initPlatform : PlatformState := { registered_sensors := [], entities := [] }
/-- Established Expiry State used as a concrete sample: a Target set up at
time 0 whose first probe succeeded with an expiry 100 days out. -/
def sampleReadyState : ExpiryState :=
  updateState (initialExpiryState 0) (.success 8640000) 0

/-- Concrete sample state after a certificate-level failure tick on the
established sample state. -/
def sampleCertErrorState : ExpiryState :=
  updateState sampleReadyState (.failure .certError "some error") 43200

/-- C1: on any Failure tick of an established Target, `is_valid` becomes
false and `error` holds the failure message; the stored `expiry_timestamp`
is retained from the last success exactly when the failure kind is the
transient `unreachable`, and it is cleared for `certError` failures. -/
theorem failure_tick_sets_error_and_retention
    (st : ExpiryState) (k : ErrorKind) (m : String) (now v : Int)
    (h : st.expiry_timestamp = some v) :
    (updateState st (.failure k m) now).is_valid = false ∧
    (updateState st (.failure k m) now).error = some m ∧
    ((updateState st (.failure k m) now).expiry_timestamp = some v ↔ k = .unreachable) ∧
    (k = .certError → (updateState st (.failure k m) now).expiry_timestamp = none) := by
  cases k <;> simp [updateState, h]

/-- Witness for C1 at the established sample state and a transient
failure. -/
theorem failure_tick_sets_error_and_retention_witness :
    sampleReadyState.expiry_timestamp = some 8640000 ∧
    ((updateState sampleReadyState (.failure .unreachable "dns failure") 43200).is_valid = false ∧
     (updateState sampleReadyState (.failure .unreachable "dns failure") 43200).error = some "dns failure" ∧
     ((updateState sampleReadyState (.failure .unreachable "dns failure") 43200).expiry_timestamp = some 8640000 ↔
        ErrorKind.unreachable = .unreachable) ∧
     (ErrorKind.unreachable = .certError →
       (updateState sampleReadyState (.failure .unreachable "dns failure") 43200).expiry_timestamp = none)) :=
  ⟨rfl, failure_tick_sets_error_and_retention sampleReadyState .unreachable "dns failure" 43200 8640000 rfl⟩

/-- C2 counterexample: an unknown-kind failure tick on an established
Target does not produce the same Expiry State update as a certError tick
with the same message; the days reading after the unknown tick is the
unavailable marker, not 0. -/
theorem unknown_tick_differs_from_certError_tick :
    updateState sampleReadyState (.failure .unknown "something bad") 43200
      ≠ updateState sampleReadyState (.failure .certError "something bad") 43200 ∧
    daysReading (updateState sampleReadyState (.failure .unknown "something bad") 43200) 43200 = none ∧
    daysReading (updateState sampleReadyState (.failure .certError "something bad") 43200) 43200 = some 0 := by
  refine ⟨by decide, rfl, rfl⟩

/-- C2 (amended): an unknown-kind failure tick keeps the Target `ready` and
has the certError stored-state effects (`is_valid` false, `error` set to the
message, `expiry_timestamp` cleared), but it marks the refresh failed, so
the days reading becomes the unavailable marker, unlike a certError tick
whose reading is an available 0. -/
theorem unknown_tick_marks_reading_unavailable
    (st : ExpiryState) (m : String) (now : Int) :
    tick (.ready st) (.failure .unknown m) now = .ready (updateState st (.failure .unknown m) now) ∧
    (updateState st (.failure .unknown m) now).is_valid = false ∧
    (updateState st (.failure .unknown m) now).error = some m ∧
    (updateState st (.failure .unknown m) now).expiry_timestamp = none ∧
    daysReading (updateState st (.failure .unknown m) now) now = none ∧
    daysReading (updateState st (.failure .certError m) now) now = some 0 := by
  simp [tick, updateState, daysReading]

/-- C3: the days reading is derived as the clamp
`max 0 (floor((ts - now) / 86400))`, hence never negative; a past expiry
yields 0, and an absent expiry timestamp yields the reading 0 rather than a
negative value or an exception. -/
theorem days_remaining_reading_clamped (st : ExpiryState) (now ts : Int) :
    daysRemaining now ts = max 0 (Int.ediv (ts - now) 86400) ∧
    0 ≤ daysRemaining now ts ∧
    (ts ≤ now → daysRemaining now ts = 0) ∧
    (st.expiry_timestamp = none → st.available = true → daysReading st now = some 0) ∧
    (∀ d, daysReading st now = some d → 0 ≤ d) := by
  refine ⟨rfl, le_max_left 0 _, ?_, ?_, ?_⟩
  · intro hle
    have hdiv : Int.ediv (ts - now) 86400 ≤ 0 := by
      have h1 := Int.ediv_le_ediv (c := 86400) (by norm_num) (show ts - now ≤ 0 by omega)
      simpa using h1
    unfold daysRemaining
    omega
  · intro hnone havail
    simp [daysReading, havail, hnone]
  · intro d hd
    unfold daysReading at hd
    by_cases havail : st.available
    · rw [if_pos havail] at hd
      cases hts : st.expiry_timestamp with
      | none =>
          rw [hts] at hd
          simp at hd
          omega
      | some t =>
          rw [hts] at hd
          simp at hd
          have h0 : 0 ≤ daysRemaining now t := le_max_left 0 _
          omega
    · rw [if_neg havail] at hd
      exact absurd hd (by simp)

/-- Witness for C3: a past expiry clamps to 0, and the sample
certificate-error state (no stored timestamp) reads 0. -/
theorem days_remaining_reading_clamped_witness :
    ((-86400 : Int) ≤ (0 : Int)) ∧
    sampleCertErrorState.expiry_timestamp = none ∧
    sampleCertErrorState.available = true ∧
    daysRemaining 0 (-86400) = 0 ∧
    daysReading sampleCertErrorState 0 = some 0 :=
  ⟨by decide, rfl, rfl,
   (days_remaining_reading_clamped sampleCertErrorState 0 (-86400)).2.2.1 (by decide),
   (days_remaining_reading_clamped sampleCertErrorState 0 (-86400)).2.2.2.1 rfl rfl⟩
/-- Helper: running ticks from an established Target folds the per-tick
update over the probe results and stays established. -/
theorem runTicks_ready (ps : List (ProbeResult × Int)) (s : ExpiryState) :
    runTicks (.ready s) ps = .ready (ps.foldl (fun a p => updateState a p.1 p.2) s) := by
  induction ps generalizing s with
  | nil => rfl
  | cons p rest ih =>
      show runTicks (tick (.ready s) p.1 p.2) rest = _
      rw [show tick (.ready s) p.1 p.2 = .ready (updateState s p.1 p.2) from rfl]
      exact ih (updateState s p.1 p.2)

/-- C4: once a Target is `ready`, no sequence of probe results returns it to
`setupRetry` or removes it; every failure tick sets `is_valid` false and
records the error, and a tick makes `is_valid` true exactly when its probe
is a success whose timestamp lies in the future. -/
theorem ready_is_absorbing_and_validity_characterized :
    (∀ (s : ExpiryState) (ps : List (ProbeResult × Int)),
      ∃ s', runTicks (.ready s) ps = .ready s') ∧
    (∀ (s : ExpiryState) (k : ErrorKind) (m : String) (now : Int),
      (updateState s (.failure k m) now).is_valid = false ∧
      (updateState s (.failure k m) now).error = some m) ∧
    (∀ (s : ExpiryState) (r : ProbeResult) (now : Int),
      (updateState s r now).is_valid = true ↔ ∃ ts, r = .success ts ∧ now < ts) := by
  refine ⟨?_, ?_, ?_⟩
  · intro s ps
    exact ⟨_, runTicks_ready ps s⟩
  · intro s k m now
    cases k <;> simp [updateState]
  · intro s r now
    cases r with
    | success ts => simp [updateState]
    | failure k m => cases k <;> simp [updateState]

/-- C5: the per-tick update is idempotent: applying it twice with the same
Fetcher output (at the same tick time) equals applying it once, both at the
Expiry State level and at the Target lifecycle level. -/
theorem tick_update_idempotent (st : ExpiryState) (t : TargetState) (r : ProbeResult) (now : Int) :
    updateState (updateState st r now) r now = updateState st r now ∧
    tick (tick t r now) r now = tick t r now := by
  have hupd : ∀ s : ExpiryState, updateState (updateState s r now) r now = updateState s r now := by
    intro s
    cases r with
    | success ts => simp [updateState]
    | failure k m => cases k <;> simp [updateState]
  refine ⟨hupd st, ?_⟩
  cases t with
  | setupRetry =>
      cases r with
      | success ts => simp [tick, addTarget, hupd]
      | failure k m => cases k <;> simp [tick, addTarget, hupd]
  | ready s => simp [tick, hupd]
  | removed => simp [tick]

/-- C6: a Target whose initial probe is a transient `unreachable` failure is
not established: `add_target` yields the setup-retry signal, no derived
readings are registered, and a retry probe failing the same way leaves the
Target unestablished with no readings. -/
theorem unreachable_setup_retry_no_readings (m mr : String) (now nr : Int) :
    addTarget (.failure .unreachable m) now = .setupRetry ∧
    readingsRegistered (addTarget (.failure .unreachable m) now) = false ∧
    runTicks (addTarget (.failure .unreachable m) now) [(.failure .unreachable mr, nr)] = .setupRetry ∧
    readingsRegistered
      (runTicks (addTarget (.failure .unreachable m) now) [(.failure .unreachable mr, nr)]) = false := by
  refine ⟨rfl, rfl, rfl, rfl⟩

/-- C7: a Target whose first probe succeeds with an expiry 100 days in the
future becomes `ready` with a days reading of 100, `is_valid` true, and the
error attribute rendered as the string "None". -/
theorem setup_success_100_days (now : Int) :
    ∃ s : ExpiryState,
      addTarget (.success (now + 100 * 86400)) now = .ready s ∧
      daysReading s now = some 100 ∧
      s.is_valid = true ∧
      errorAttr s = "None" := by
  refine ⟨_, rfl, ?_, ?_, rfl⟩
  · have h : now + 100 * 86400 - now = 8640000 := by omega
    simp [daysReading, updateState, daysRemaining, h]
    decide
  · simp [updateState]

/-- C8: a Target whose first probe raises a certificate-level error with
message "some error" still becomes `ready`, with readings registered, a
days reading of 0, `is_valid` false, and error attribute "some error". -/
theorem setup_bad_cert_ready (now : Int) :
    ∃ s : ExpiryState,
      addTarget (.failure .certError "some error") now = .ready s ∧
      readingsRegistered (addTarget (.failure .certError "some error") now) = true ∧
      daysReading s now = some 0 ∧
      s.is_valid = false ∧
      errorAttr s = "some error" := by
  exact ⟨_, rfl, rfl, rfl, rfl, rfl⟩

/-- C9: with a reading available, the timestamp reading is the absolute
expiry instant (the value rendered in ISO-8601) exactly when an expiry
timestamp is stored and the unknown marker otherwise, and both readings
carry the side attributes mirrored from the Expiry State, with a recorded
failure message rendered as the error string and an absent error rendered
as "None". -/
theorem timestamp_reading_spec :
    (∀ (lpt ts : Int) (v : Bool) (e : Option String),
      timestampReading
        { last_probe_time := lpt, expiry_timestamp := some ts,
          is_valid := v, error := e, available := true } = .instant ts) ∧
    (∀ (lpt : Int) (v : Bool) (e : Option String),
      timestampReading
        { last_probe_time := lpt, expiry_timestamp := none,
          is_valid := v, error := e, available := true } = .unknown) ∧
    (∀ st : ExpiryState, attrsOf st = { error := errorAttr st, is_valid := st.is_valid }) ∧
    (∀ (st : ExpiryState) (k : ErrorKind) (m : String) (now : Int),
      attrsOf (updateState st (.failure k m) now) = { error := m, is_valid := false }) ∧
    (∀ (st : ExpiryState) (ts now : Int),
      attrsOf (updateState st (.success ts) now)
        = { error := "None", is_valid := decide (now < ts) }) := by
  refine ⟨?_, ?_, ?_, ?_, ?_⟩
  · intro lpt ts v e
    rfl
  · intro lpt v e
    rfl
  · intro st
    rfl
  · intro st k m now
    cases k <;> rfl
  · intro st ts now
    rfl
/-- Helper: a list is never equal to itself with one more element
appended. -/
theorem self_ne_append_singleton {α : Type} (l : List α) (e : α) : l ≠ l ++ [e] := by
  intro h
  have hlen := congrArg List.length h
  simp at hlen

/-- Helper: handling one callback never removes a key from
`registered_sensors`. -/
theorem registered_mono_handle (config : SensorConfig) (st : PlatformState)
    (cb : TellstickCallback) (k : String) (h : k ∈ st.registered_sensors) :
    k ∈ (async_handle_callback config st cb).registered_sensors := by
  unfold async_handle_callback
  cases hn : sensorNameFor config cb.protocol cb.model cb.id_ with
  | none => exact h
  | some n =>
      dsimp only
      split
      · exact h
      · exact List.mem_append_left _ h

/-- Helper: running any sequence of callbacks never removes a key from
`registered_sensors`. -/
theorem registered_mono_run (config : SensorConfig) (cbs : List TellstickCallback) :
    ∀ (st : PlatformState) (k : String), k ∈ st.registered_sensors →
      k ∈ (runCallbacks config st cbs).registered_sensors := by
  induction cbs with
  | nil => intro st k h; exact h
  | cons c rest ih =>
      intro st k h
      exact ih (async_handle_callback config st c) k (registered_mono_handle config st c k h)

/-- Helper: after handling a callback that resolves to key `k`, the key is
in `registered_sensors`. -/
theorem handle_key_mem (config : SensorConfig) (st : PlatformState)
    (cb : TellstickCallback) (k : String) (hk : callbackKey config cb = some k) :
    k ∈ (async_handle_callback config st cb).registered_sensors := by
  unfold callbackKey at hk
  unfold async_handle_callback
  cases hn : sensorNameFor config cb.protocol cb.model cb.id_ with
  | none => rw [hn] at hk; exact absurd hk (by simp)
  | some n =>
      rw [hn] at hk
      simp only [Option.map_some'] at hk
      have hkey : n ++ "-" ++ toString cb.dataType = k := by
        exact Option.some.inj hk
      dsimp only
      split
      · rw [← hkey] at *
        assumption
      · rw [← hkey]
        exact List.mem_append_right _ (by simp)

/-- Helper: a callback whose key is already registered leaves the platform
state unchanged. -/
theorem handle_registered_noop (config : SensorConfig) (st : PlatformState)
    (cb : TellstickCallback) (k : String) (hk : callbackKey config cb = some k)
    (h : k ∈ st.registered_sensors) :
    async_handle_callback config st cb = st := by
  unfold callbackKey at hk
  unfold async_handle_callback
  cases hn : sensorNameFor config cb.protocol cb.model cb.id_ with
  | none => rfl
  | some n =>
      rw [hn] at hk
      simp only [Option.map_some'] at hk
      have hkey : n ++ "-" ++ toString cb.dataType = k := Option.some.inj hk
      dsimp only
      rw [hkey, if_pos h]

/-- Helper: running callbacks over an appended list decomposes into two
runs. -/
theorem runCallbacks_append (config : SensorConfig) (st : PlatformState)
    (l1 l2 : List TellstickCallback) :
    runCallbacks config st (l1 ++ l2) = runCallbacks config (runCallbacks config st l1) l2 := by
  unfold runCallbacks
  exact List.foldl_append _ _ _ _

/-- C10: in the Tellstick callback handler, the entity-creation branch runs
at most once per resolved (sensor name, datatype) key across all callbacks.
Concretely, starting from the fresh platform state: after any callback `x`
with key `k` has been handled, a later callback `y` with the same key is a
complete no-op; and the first callback carrying a not-yet-registered key
appends the key to `registered_sensors` and creates exactly one entity if
and only if its datatype is a known sensor datatype selected by the
configured `datatype_mask`, creating none (then or on any later callback
with that key) when that filter rejects it. -/
theorem entity_creation_at_most_once
    (config : SensorConfig) (pre mid : List TellstickCallback)
    (x y : TellstickCallback) (k : String)
    (hx : callbackKey config x = some k) (hy : callbackKey config y = some k) :
    (async_handle_callback config (runCallbacks config initPlatform (pre ++ x :: mid)) y
        = runCallbacks config initPlatform (pre ++ x :: mid)) ∧
    (k ∉ (runCallbacks config initPlatform pre).registered_sensors →
      ((async_handle_callback config (runCallbacks config initPlatform pre) x).registered_sensors
          = (runCallbacks config initPlatform pre).registered_sensors ++ [k] ∧
       ((∃ e, (async_handle_callback config (runCallbacks config initPlatform pre) x).entities
              = (runCallbacks config initPlatform pre).entities ++ [e]) ↔
         ((lookupLast (sensor_value_descriptions config) x.dataType).isSome = true ∧
          x.dataType &&& config.datatype_mask ≠ 0)) ∧
       ((lookupLast (sensor_value_descriptions config) x.dataType = none ∨
          x.dataType &&& config.datatype_mask = 0) →
         (async_handle_callback config (runCallbacks config initPlatform pre) x).entities
            = (runCallbacks config initPlatform pre).entities))) := by
  constructor
  · have hdecomp :
        runCallbacks config initPlatform (pre ++ x :: mid)
          = runCallbacks config
              (async_handle_callback config (runCallbacks config initPlatform pre) x) mid := by
      rw [runCallbacks_append]
      rfl
    have hreg : k ∈ (runCallbacks config initPlatform (pre ++ x :: mid)).registered_sensors := by
      rw [hdecomp]
      exact registered_mono_run config mid _ k
        (handle_key_mem config (runCallbacks config initPlatform pre) x k hx)
    exact handle_registered_noop config _ y k hy hreg
  · intro hnot
    unfold callbackKey at hx
    unfold async_handle_callback
    cases hn : sensorNameFor config x.protocol x.model x.id_ with
    | none => rw [hn] at hx; exact absurd hx (by simp)
    | some n =>
        rw [hn] at hx
        simp only [Option.map_some'] at hx
        have hkey : n ++ "-" ++ toString x.dataType = k := Option.some.inj hx
        dsimp only
        rw [hkey, if_neg hnot]
        refine ⟨rfl, ?_, ?_⟩
        · cases hl : lookupLast (sensor_value_descriptions config) x.dataType with
          | none =>
              simp only [hl]
              constructor
              · intro he
                obtain ⟨e, he⟩ := he
                rw [List.append_nil] at he
                exact absurd he (self_ne_append_singleton _ e)
              · intro hcontra
                simp at hcontra
          | some info =>
              simp only [hl]
              by_cases hm : x.dataType &&& config.datatype_mask ≠ 0
              · rw [if_pos hm]
                simp only [Option.isSome_some, true_and]
                constructor
                · intro _
                  exact hm
                · intro _
                  exact ⟨mkTellstickSensor n x.dataType info, rfl⟩
              · rw [if_neg hm]
                constructor
                · intro he
                  obtain ⟨e, he⟩ := he
                  rw [List.append_nil] at he
                  exact absurd he (self_ne_append_singleton _ e)
                · intro hcontra
                  exact absurd hcontra.2 hm
        · intro hfilter
          cases hl : lookupLast (sensor_value_descriptions config) x.dataType with
          | none => simp [hl]
          | some info =>
              cases hfilter with
              | inl h0 => rw [hl] at h0; exact absurd h0 (by simp)
              | inr h0 => simp [hl, h0]
/-- Concrete Tellstick configuration for witnesses: no `only_named` filter
and the default datatype mask 127. -/
def sampleTellConfig : SensorConfig :=
  { only_named := [], datatype_mask := 127, temperature_scale := "C" }

/-- Concrete callback: device 5 reporting humidity (datatype 2). -/
def sampleCallbackA : TellstickCallback :=
  { protocol := "fineoffset", model := "temperaturehumidity", id_ := 5, dataType := 2 }

/-- Concrete callback with the same sensor name and datatype as
`sampleCallbackA` but a different protocol, which resolves to the same
registration key when `only_named` is empty. -/
def sampleCallbackB : TellstickCallback :=
  { protocol := "mandolyn", model := "other", id_ := 5, dataType := 2 }

/-- Concrete interleaved callback for a different device. -/
def sampleMid : List TellstickCallback :=
  [{ protocol := "fineoffset", model := "temperaturehumidity", id_ := 7, dataType := 1 }]

/-- Witness for C10 at a concrete configuration and callback sequence. -/
theorem entity_creation_at_most_once_witness :
    callbackKey sampleTellConfig sampleCallbackA = some "5-2" ∧
    callbackKey sampleTellConfig sampleCallbackB = some "5-2" ∧
    "5-2" ∉ (runCallbacks sampleTellConfig initPlatform []).registered_sensors ∧
    async_handle_callback sampleTellConfig
        (runCallbacks sampleTellConfig initPlatform ([] ++ sampleCallbackA :: sampleMid))
        sampleCallbackB
      = runCallbacks sampleTellConfig initPlatform ([] ++ sampleCallbackA :: sampleMid) ∧
    (async_handle_callback sampleTellConfig
        (runCallbacks sampleTellConfig initPlatform []) sampleCallbackA).registered_sensors
      = (runCallbacks sampleTellConfig initPlatform []).registered_sensors ++ ["5-2"] :=
  ⟨by decide, by decide, by decide,
   (entity_creation_at_most_once sampleTellConfig [] sampleMid
      sampleCallbackA sampleCallbackB "5-2" (by decide) (by decide)).1,
   ((entity_creation_at_most_once sampleTellConfig [] sampleMid
      sampleCallbackA sampleCallbackB "5-2" (by decide) (by decide)).2 (by decide)).1⟩
